import Mathlib

set_option linter.unusedVariables false

/-!
Shallow embedding of scripts/proxmox_bridge.py (the Nexus-IaaS Proxmox bridge).

The hypervisor client (proxmoxer) is modelled as an oracle record `Hypervisor`
whose fields map each remote endpoint to an `Except`-valued response; the task
status endpoint is additionally indexed by the elapsed polling time, so that a
pending job can change state between polls.  Every handler is translated to a
pure function returning the result envelope together with the ordered list of
effects (remote calls and sleeps) it performed, so that call-count and
call-order properties can be stated about the trace.
-/

/-- Python exceptions distinguished by the handlers: the proxmoxer
ResourceException on one hand and every other exception on the other. -/
inductive PyErr where
  | resource (msg : String)
  | other (msg : String)
deriving Repr, DecidableEq

/-- Response of the current-status query
nodes(node).qemu(vmid).status.current.get(): the status key is always read
directly, the metric keys are read with .get defaults. -/
structure VMStatusResp where
  status : String
  uptime : Option Nat := none
  cpu : Option Nat := none
  mem : Option Nat := none
  maxmem : Option Nat := none
deriving Repr, DecidableEq

/-- Response of the task status query nodes(node).tasks(task_id).status.get();
both keys are read with .get and may be absent. -/
structure TaskStatusResp where
  status : Option String := none
  exitstatus : Option String := none
deriving Repr, DecidableEq

/-- One entry of the snapshot listing; the handler only reads the name key,
with .get, so it may be absent. -/
structure Snapshot where
  name : Option String := none
  description : Option String := none
  snaptime : Option Nat := none
deriving Repr, DecidableEq

/-- Response of the VNC proxy ticket request; both keys read with .get. -/
structure VncResp where
  ticket : Option String := none
  port : Option Nat := none
deriving Repr, DecidableEq

/-- The VM creation configuration dictionary built by create_vm. -/
structure CreateConfig where
  vmid : Nat
  name : String
  cores : Nat
  memory : Nat
  net0 : String
  ostype : String
  bootdisk : String
  scsihw : String
  scsi0 : String
  ide2 : String
  description : String
deriving Repr, DecidableEq

/-- The JSON result dictionary of an invocation.  Python dictionaries carry
only the keys each code path sets, so every field other than success is an
Option, defaulting to none (key absent). -/
structure Envelope where
  success : Bool
  message : Option String := none
  vmid : Option Nat := none
  task_id : Option String := none
  error : Option String := none
  status : Option String := none
  uptime : Option Nat := none
  cpu : Option Nat := none
  mem : Option Nat := none
  maxmem : Option Nat := none
  console_url : Option String := none
  ticket : Option String := none
  port : Option Nat := none
  snapshots : Option (List Snapshot) := none
  snapshot_name : Option String := none
deriving Repr, DecidableEq

/-- One observable effect of a handler: a remote call to the hypervisor, or a
local sleep of the given number of seconds. -/
inductive Effect where
  | statusCurrent (vmid : Nat)
  | startPost (vmid : Nat)
  | shutdownPost (vmid : Nat)
  | stopPost (vmid : Nat)
  | rebootPost (vmid : Nat)
  | deletePost (vmid purge : Nat)
  | qemuCreate (cfg : CreateConfig)
  | snapshotGet (vmid : Nat)
  | snapshotPost (vmid : Nat) (snapname descr : String) (vmstate : Nat)
  | vncproxyPost (vmid : Nat)
  | taskStatus (task_id : String) (elapsed : Nat)
  | sleep (seconds : Nat)
deriving Repr, DecidableEq

/-- Whether an effect is a mutating remote call (submits work to the
hypervisor, as opposed to a read-only query or a local sleep). -/
def Effect.isMutating : Effect → Bool
  | .startPost _ => true
  | .shutdownPost _ => true
  | .stopPost _ => true
  | .rebootPost _ => true
  | .deletePost _ _ => true
  | .qemuCreate _ => true
  | .snapshotPost _ _ _ _ => true
  | _ => false

/-- Whether an effect is a poll of the task status endpoint. -/
def Effect.isTaskStatus : Effect → Bool
  | .taskStatus _ _ => true
  | _ => false

/-- The hypervisor client capability: each remote endpoint as a response
oracle.  The task status endpoint is indexed by the elapsed time of the poll,
so a pending job can change state over time; within one invocation the other
endpoints respond deterministically. -/
structure Hypervisor where
  host : String
  statusCurrent : Nat → Except PyErr VMStatusResp
  startPost : Nat → Except PyErr String
  shutdownPost : Nat → Except PyErr String
  stopPost : Nat → Except PyErr String
  rebootPost : Nat → Except PyErr String
  deletePost : Nat → Nat → Except PyErr String
  qemuCreate : CreateConfig → Except PyErr String
  snapshotGet : Nat → Except PyErr (List Snapshot)
  snapshotPost : Nat → String → String → Nat → Except PyErr String
  vncproxyPost : Nat → Except PyErr (Option VncResp)
  taskStatus : String → Nat → Except PyErr TaskStatusResp

/-- The error envelope produced by the two except clauses shared by the
lifecycle handlers: a ResourceException gets the Proxmox API error prefix,
every other exception the generic Error prefix; neither path sets vmid. -/
def errEnvelope (e : PyErr) : Envelope :=
  match e with
  | .resource m => { success := false, message := some ("Proxmox API error: " ++ m), error := some m }
  | .other m => { success := false, message := some ("Error: " ++ m), error := some m }

/-- The polling loop of _wait_for_task: while elapsed < timeout, query the
task status (a failed query is swallowed by the bare except), return the exit
status as soon as the status is stopped, otherwise sleep 2 seconds and add 2
to elapsed; on loop exit return the timeout sentinel.  Returns the result
string together with the trace of polls and sleeps. -/
def wait_loop (h : Hypervisor) (task_id : String) (timeout elapsed : Nat) :
    String × List Effect :=
  if _hlt : elapsed < timeout then
    match h.taskStatus task_id elapsed with
    | .ok st =>
        if st.status = some "stopped" then
          (st.exitstatus.getD "unknown", [Effect.taskStatus task_id elapsed])
        else
          let r := wait_loop h task_id timeout (elapsed + 2)
          (r.1, Effect.taskStatus task_id elapsed :: Effect.sleep 2 :: r.2)
    | .error _ =>
        let r := wait_loop h task_id timeout (elapsed + 2)
        (r.1, Effect.taskStatus task_id elapsed :: Effect.sleep 2 :: r.2)
  else
    ("timeout", [])
termination_by timeout - elapsed
decreasing_by omega

/-- ProxmoxBridge._wait_for_task with its default timeout of 60 seconds. -/
def wait_for_task (h : Hypervisor) (task_id : String) (timeout : Nat := 60) :
    String × List Effect :=
  wait_loop h task_id timeout 0

/-- The configuration dictionary built at the top of create_vm. -/
def create_config (vmid : Nat) (name : String) (vcpu ram disk : Nat)
    (os_template ip_address gateway : String) : CreateConfig :=
  { vmid := vmid
    name := name
    cores := vcpu
    memory := ram
    net0 := "virtio,bridge=vmbr0,firewall=1"
    ostype := "l26"
    bootdisk := "scsi0"
    scsihw := "virtio-scsi-pci"
    scsi0 := "local-lvm:" ++ toString disk
    ide2 := "local:iso/" ++ os_template ++ ".iso,media=cdrom"
    description := "Created by Nexus-IaaS\nIP: " ++ ip_address ++ "\nGateway: " ++ gateway }

/-- ProxmoxBridge.create_vm: build the configuration dictionary, submit the
creation job, wait for the task with the default 60 second timeout, and raise
(caught by the generic except clause) when the exit status is not OK. -/
def create_vm (h : Hypervisor) (vmid : Nat) (name : String)
    (vcpu ram disk : Nat) (os_template ip_address gateway : String) :
    Envelope × List Effect :=
  let config := create_config vmid name vcpu ram disk os_template ip_address gateway
  match h.qemuCreate config with
  | .error e => (errEnvelope e, [Effect.qemuCreate config])
  | .ok task_id =>
      let w := wait_for_task h task_id
      if w.1 = "OK" then
        ({ success := true
           message := some ("VM " ++ name ++ " created successfully")
           vmid := some vmid
           task_id := some task_id },
         Effect.qemuCreate config :: w.2)
      else
        (errEnvelope (.other ("VM creation failed with status: " ++ w.1)),
         Effect.qemuCreate config :: w.2)

/-- ProxmoxBridge.start_vm: query the current status; if already running,
succeed without mutating; otherwise submit the start job and succeed
immediately. -/
def start_vm (h : Hypervisor) (vmid : Nat) : Envelope × List Effect :=
  match h.statusCurrent vmid with
  | .error e => (errEnvelope e, [Effect.statusCurrent vmid])
  | .ok st =>
      if st.status = "running" then
        ({ success := true, message := some "VM is already running", vmid := some vmid },
         [Effect.statusCurrent vmid])
      else
        match h.startPost vmid with
        | .error e => (errEnvelope e, [Effect.statusCurrent vmid, Effect.startPost vmid])
        | .ok task_id =>
            ({ success := true
               message := some "VM started successfully"
               vmid := some vmid
               task_id := some task_id },
             [Effect.statusCurrent vmid, Effect.startPost vmid])

/-- ProxmoxBridge.stop_vm: query the current status; if already stopped,
succeed without mutating; otherwise submit an immediate stop when force is
set, and a graceful shutdown otherwise, succeeding immediately. -/
def stop_vm (h : Hypervisor) (vmid : Nat) (force : Bool := false) :
    Envelope × List Effect :=
  match h.statusCurrent vmid with
  | .error e => (errEnvelope e, [Effect.statusCurrent vmid])
  | .ok st =>
      if st.status = "stopped" then
        ({ success := true, message := some "VM is already stopped", vmid := some vmid },
         [Effect.statusCurrent vmid])
      else
        let post := if force then (h.stopPost vmid, Effect.stopPost vmid)
                    else (h.shutdownPost vmid, Effect.shutdownPost vmid)
        match post.1 with
        | .error e => (errEnvelope e, [Effect.statusCurrent vmid, post.2])
        | .ok task_id =>
            ({ success := true
               message := some "VM stopped successfully"
               vmid := some vmid
               task_id := some task_id },
             [Effect.statusCurrent vmid, post.2])

/-- ProxmoxBridge.reboot_vm: query the current status; fail with the
precondition message when the VM is not running; otherwise submit the reboot
job and succeed immediately. -/
def reboot_vm (h : Hypervisor) (vmid : Nat) : Envelope × List Effect :=
  match h.statusCurrent vmid with
  | .error e => (errEnvelope e, [Effect.statusCurrent vmid])
  | .ok st =>
      if st.status ≠ "running" then
        ({ success := false, message := some "VM must be running to reboot", vmid := some vmid },
         [Effect.statusCurrent vmid])
      else
        match h.rebootPost vmid with
        | .error e => (errEnvelope e, [Effect.statusCurrent vmid, Effect.rebootPost vmid])
        | .ok task_id =>
            ({ success := true
               message := some "VM rebooted successfully"
               vmid := some vmid
               task_id := some task_id },
             [Effect.statusCurrent vmid, Effect.rebootPost vmid])

/-- ProxmoxBridge.delete_vm: query the current status; if running, call
stop_vm with force (discarding its result) and sleep 3 seconds; then submit
the delete with purge converted to an integer, succeeding immediately. -/
def delete_vm (h : Hypervisor) (vmid : Nat) (purge : Bool := true) :
    Envelope × List Effect :=
  match h.statusCurrent vmid with
  | .error e => (errEnvelope e, [Effect.statusCurrent vmid])
  | .ok st =>
      let pre : List Effect :=
        if st.status = "running" then
          Effect.statusCurrent vmid :: ((stop_vm h vmid true).2 ++ [Effect.sleep 3])
        else
          [Effect.statusCurrent vmid]
      let purgeInt : Nat := if purge then 1 else 0
      match h.deletePost vmid purgeInt with
      | .error e => (errEnvelope e, pre ++ [Effect.deletePost vmid purgeInt])
      | .ok task_id =>
          ({ success := true
             message := some "VM deleted successfully"
             vmid := some vmid
             task_id := some task_id },
           pre ++ [Effect.deletePost vmid purgeInt])

/-- ProxmoxBridge.get_vm_status: query the current status and report its
metrics with .get defaults of 0; the success dictionary carries no message
key, and a ResourceException gets its own message prefix here. -/
def get_vm_status (h : Hypervisor) (vmid : Nat) : Envelope × List Effect :=
  match h.statusCurrent vmid with
  | .ok st =>
      ({ success := true
         vmid := some vmid
         status := some st.status
         uptime := some (st.uptime.getD 0)
         cpu := some (st.cpu.getD 0)
         mem := some (st.mem.getD 0)
         maxmem := some (st.maxmem.getD 0) },
       [Effect.statusCurrent vmid])
  | .error (.resource m) =>
      ({ success := false
         message := some ("VM not found or API error: " ++ m)
         error := some m },
       [Effect.statusCurrent vmid])
  | .error (.other m) =>
      ({ success := false, message := some ("Error: " ++ m), error := some m },
       [Effect.statusCurrent vmid])

/-- ProxmoxBridge.get_console_url: query the current status; fail with the
precondition message when not running; request a VNC proxy ticket, raising
(caught by the generic except clause) when the response is falsy; compose the
console URL from host, vmid, node, ticket and port. -/
def get_console_url (h : Hypervisor) (vmid : Nat) (node : String) :
    Envelope × List Effect :=
  match h.statusCurrent vmid with
  | .error e => (errEnvelope e, [Effect.statusCurrent vmid])
  | .ok st =>
      if st.status ≠ "running" then
        ({ success := false
           message := some "VM must be running to access console"
           vmid := some vmid },
         [Effect.statusCurrent vmid])
      else
        match h.vncproxyPost vmid with
        | .error e => (errEnvelope e, [Effect.statusCurrent vmid, Effect.vncproxyPost vmid])
        | .ok none =>
            (errEnvelope (.other "Failed to generate VNC proxy"),
             [Effect.statusCurrent vmid, Effect.vncproxyPost vmid])
        | .ok (some vnc) =>
            let ticket := vnc.ticket.getD ""
            let port := vnc.port.getD 5900
            ({ success := true
               message := some "Console URL generated"
               vmid := some vmid
               console_url := some ("https://" ++ h.host ++ ":8006/?console=kvm&novnc=1&vmid="
                 ++ toString vmid ++ "&node=" ++ node ++ "&resize=scale&ticket=" ++ ticket
                 ++ "&port=" ++ toString port)
               ticket := some ticket
               port := some port },
             [Effect.statusCurrent vmid, Effect.vncproxyPost vmid])

/-- ProxmoxBridge.list_snapshots: fetch the snapshot listing and filter out
every entry whose name key equals the current pseudo-snapshot. -/
def list_snapshots (h : Hypervisor) (vmid : Nat) : Envelope × List Effect :=
  match h.snapshotGet vmid with
  | .error e => (errEnvelope e, [Effect.snapshotGet vmid])
  | .ok snapshots =>
      let snapshot_list := snapshots.filter (fun s => s.name ≠ some "current")
      ({ success := true
         message := some ("Found " ++ toString snapshot_list.length ++ " snapshots")
         vmid := some vmid
         snapshots := some snapshot_list },
       [Effect.snapshotGet vmid])

/-- The description argument of the snapshot job: create_snapshot defaults it
with Python or when the given description is falsy. -/
def snapshot_desc (descr : String) : String :=
  if descr = "" then "Created by Nexus-IaaS" else descr

/-- ProxmoxBridge.create_snapshot: submit the snapshot job with the
description defaulted when falsy and vmstate 0, wait for the task with a 120
second timeout, and raise (caught by the generic except clause) when the exit
status is not OK. -/
def create_snapshot (h : Hypervisor) (vmid : Nat) (snapshot_name : String)
    (descr : String := "") : Envelope × List Effect :=
  let desc := snapshot_desc descr
  match h.snapshotPost vmid snapshot_name desc 0 with
  | .error e => (errEnvelope e, [Effect.snapshotPost vmid snapshot_name desc 0])
  | .ok task_id =>
      let w := wait_for_task h task_id 120
      if w.1 = "OK" then
        ({ success := true
           message := some ("Snapshot \"" ++ snapshot_name ++ "\" created successfully")
           vmid := some vmid
           snapshot_name := some snapshot_name
           task_id := some task_id },
         Effect.snapshotPost vmid snapshot_name desc 0 :: w.2)
      else
        (errEnvelope (.other ("Snapshot creation failed with status: " ++ w.1)),
         Effect.snapshotPost vmid snapshot_name desc 0 :: w.2)

/-- The parsed command line arguments of main, after argparse: the action
string, the required vmid, and the optional per-action parameters. -/
structure Args where
  action : String
  vmid : Nat
  name : Option String := none
  vcpu : Option Nat := none
  ram : Option Nat := none
  disk : Option Nat := none
  os_template : Option String := none
  ip_address : Option String := none
  gateway : Option String := none
  node : Option String := none
  force : Bool := false
  snapshot_name : Option String := none
  snapshot_description : String := ""
deriving Repr, DecidableEq

/-- Python truthiness of an optional string: None and the empty string are
falsy. -/
def truthyStr : Option String → Bool
  | none => false
  | some s => s ≠ ""

/-- Python truthiness of an optional integer: None and 0 are falsy. -/
def truthyNat : Option Nat → Bool
  | none => false
  | some n => n ≠ 0

/-- The all([...]) validation of the create action in main. -/
def createArgsOk (args : Args) : Bool :=
  truthyStr args.name && truthyNat args.vcpu && truthyNat args.ram
    && truthyNat args.disk && truthyStr args.os_template
    && truthyStr args.ip_address && truthyStr args.gateway

/-- The action dispatch of main: the if/elif chain selecting one handler per
action name, with the per-action parameter validation, and the unknown-action
fallback.  Returns the result envelope and the trace of hypervisor effects. -/
def dispatch (h : Hypervisor) (node : String) (args : Args) :
    Envelope × List Effect :=
  if args.action = "create" then
    if !(createArgsOk args) then
      ({ success := false, message := some "Missing required arguments for create action" }, [])
    else
      create_vm h args.vmid (args.name.getD "") (args.vcpu.getD 0) (args.ram.getD 0)
        (args.disk.getD 0) (args.os_template.getD "") (args.ip_address.getD "")
        (args.gateway.getD "")
  else if args.action = "start" then
    start_vm h args.vmid
  else if args.action = "stop" then
    stop_vm h args.vmid args.force
  else if args.action = "reboot" then
    reboot_vm h args.vmid
  else if args.action = "delete" then
    delete_vm h args.vmid
  else if args.action = "status" then
    get_vm_status h args.vmid
  else if args.action = "console" then
    get_console_url h args.vmid node
  else if args.action = "snapshot_list" then
    list_snapshots h args.vmid
  else if args.action = "snapshot_create" then
    if !(truthyStr args.snapshot_name) then
      ({ success := false, message := some "Missing --snapshot-name for snapshot_create action" }, [])
    else
      create_snapshot h args.vmid (args.snapshot_name.getD "") args.snapshot_description
  else
    ({ success := false, message := some "Unknown action" }, [])

/-- The environment configuration read by main. -/
structure Config where
  host : Option String := none
  user : Option String := none
  password : Option String := none
deriving Repr, DecidableEq

/-- Whether the configuration check if not all([host, user, password])
passes. -/
def configOk (cfg : Config) : Bool :=
  truthyStr cfg.host && truthyStr cfg.user && truthyStr cfg.password

/-- The tail of main after argument parsing: check the configuration, connect
the bridge (a connection failure is caught by the outer except clause and
reported as a bridge error), dispatch the action, and exit 0 exactly when the
resulting envelope reports success.  Returns the envelope and the process
exit code. -/
def mainRun (cfg : Config) (node : String) (connect : Except String Hypervisor)
    (args : Args) : Envelope × Nat :=
  if !(configOk cfg) then
    ({ success := false
       message := some "Missing Proxmox configuration. Check .env file."
       error := some "Missing environment variables" },
     1)
  else
    match connect with
    | .error e =>
        ({ success := false, message := some ("Bridge error: " ++ e), error := some e }, 1)
    | .ok h =>
        let r := dispatch h node args
        (r.1, if r.1.success then 0 else 1)

/-! Concrete fixtures used by witnesses and counterexamples. -/

/-- A current-status response reporting a running VM. -/
def stRunning : VMStatusResp :=
  { status := "running", uptime := some 120, cpu := some 0, mem := some 512, maxmem := some 1024 }

/-- A current-status response reporting a stopped VM. -/
def stStopped : VMStatusResp := { status := "stopped" }

/-- A hypervisor fixture whose VMs report running and whose jobs finish
immediately with exit status OK. -/
def hvRunning : Hypervisor :=
  { host := "192.0.2.10"
    statusCurrent := fun _ => .ok stRunning
    startPost := fun _ => .ok "UPID:start:1"
    shutdownPost := fun _ => .ok "UPID:shutdown:1"
    stopPost := fun _ => .ok "UPID:stop:1"
    rebootPost := fun _ => .ok "UPID:reboot:1"
    deletePost := fun _ _ => .ok "UPID:delete:1"
    qemuCreate := fun _ => .ok "UPID:qmcreate:1"
    snapshotGet := fun _ => .ok []
    snapshotPost := fun _ _ _ _ => .ok "UPID:snap:1"
    vncproxyPost := fun _ => .ok (some { ticket := some "VNCTICKET", port := some 5901 })
    taskStatus := fun _ _ => .ok { status := some "stopped", exitstatus := some "OK" } }

/-- The running fixture with VMs reporting stopped instead. -/
def hvStopped : Hypervisor :=
  { hvRunning with statusCurrent := fun _ => .ok stStopped }

/-- The running fixture with a forced stop that always fails with a
ResourceException. -/
def hvStopFails : Hypervisor :=
  { hvRunning with stopPost := fun _ => .error (.resource "cannot stop VM") }

/-- The running fixture with a task that never reaches the stopped state. -/
def hvPending : Hypervisor :=
  { hvRunning with taskStatus := fun _ _ => .ok { status := some "running" } }

/-- Snapshot fixtures: the implicit current pseudo-entry and two named
snapshots. -/
def snapCurrent : Snapshot := { name := some "current", description := some "You are here!" }

def snapAlpha : Snapshot := { name := some "alpha", snaptime := some 1700000100 }

def snapBeta : Snapshot := { name := some "beta", snaptime := some 1700000200 }

/-- The running fixture with a three-entry snapshot listing. -/
def hvSnaps : Hypervisor :=
  { hvRunning with snapshotGet := fun _ => .ok [snapCurrent, snapAlpha, snapBeta] }

/-- A complete environment configuration. -/
def cfgFull : Config :=
  { host := some "192.0.2.10", user := some "root@pam", password := some "secret" }

/-! Helper lemmas about the polling loop. -/

/-- Whether a task status poll outcome is non-terminal for the polling loop: a
failed query (swallowed) or a response whose status is not stopped. -/
def nonTerminalB : Except PyErr TaskStatusResp → Bool
  | .error _ => true
  | .ok st => st.status ≠ some "stopped"

theorem wait_loop_timeout (h : Hypervisor) (task_id : String) (timeout : Nat)
    (elapsed : Nat)
    (hnt : ∀ t, elapsed ≤ t → t < timeout → nonTerminalB (h.taskStatus task_id t) = true) :
    (wait_loop h task_id timeout elapsed).1 = "timeout" := by
  unfold wait_loop
  split
  · rename_i hlt
    have hn := hnt elapsed le_rfl hlt
    have ih := wait_loop_timeout h task_id timeout (elapsed + 2)
      (fun t ht1 ht2 => hnt t (by omega) ht2)
    cases hq : h.taskStatus task_id elapsed with
    | error e => simpa using ih
    | ok st =>
        have hns : ¬ (st.status = some "stopped") := by
          rw [hq] at hn
          simpa [nonTerminalB] using hn
        simp only [hns, if_false]
        simpa using ih
  · rfl
termination_by timeout - elapsed
decreasing_by omega

theorem wait_loop_stopped (h : Hypervisor) (task_id : String) (timeout : Nat)
    (k : Nat) (st : TaskStatusResp)
    (hk : h.taskStatus task_id k = .ok st) (hst : st.status = some "stopped")
    (elapsed : Nat) (hle : elapsed ≤ k) (hpar : (k - elapsed) % 2 = 0)
    (hkt : k < timeout)
    (hnt : ∀ t, elapsed ≤ t → t < k → nonTerminalB (h.taskStatus task_id t) = true) :
    (wait_loop h task_id timeout elapsed).1 = st.exitstatus.getD "unknown" := by
  unfold wait_loop
  have hlt : elapsed < timeout := by omega
  rw [dif_pos hlt]
  by_cases hek : elapsed = k
  · subst hek
    rw [hk]
    simp [hst]
  · have hlk : elapsed < k := by omega
    have hn := hnt elapsed le_rfl hlk
    have ih := wait_loop_stopped h task_id timeout k st hk hst (elapsed + 2)
      (by omega) (by omega) hkt (fun t ht1 ht2 => hnt t (by omega) ht2)
    cases hq : h.taskStatus task_id elapsed with
    | error e => simpa using ih
    | ok st2 =>
        have hns : ¬ (st2.status = some "stopped") := by
          rw [hq] at hn
          simpa [nonTerminalB] using hn
        simp only [hns, if_false]
        simpa using ih
termination_by k - elapsed
decreasing_by omega

theorem wait_loop_events (h : Hypervisor) (task_id : String) (timeout : Nat)
    (elapsed : Nat) :
    ∀ e ∈ (wait_loop h task_id timeout elapsed).2,
      (∃ t, (t - elapsed) % 2 = 0 ∧ elapsed ≤ t ∧ t < timeout ∧
        e = Effect.taskStatus task_id t) ∨ e = Effect.sleep 2 := by
  intro e he
  unfold wait_loop at he
  split at he
  · rename_i hlt
    have ih := wait_loop_events h task_id timeout (elapsed + 2)
    cases hq : h.taskStatus task_id elapsed with
    | error e2 =>
        rw [hq] at he
        simp only [List.mem_cons] at he
        rcases he with he | he | he
        · exact Or.inl ⟨elapsed, by simp [he], le_rfl, hlt, by simp [he]⟩
        · exact Or.inr he
        · rcases ih e he with ⟨t, h2, h3, h4, h5⟩ | hs
          · exact Or.inl ⟨t, by omega, by omega, h4, h5⟩
          · exact Or.inr hs
    | ok st =>
        simp only [hq] at he
        by_cases hns : st.status = some "stopped"
        · rw [if_pos hns] at he
          simp only [List.mem_cons, List.not_mem_nil, or_false] at he
          exact Or.inl ⟨elapsed, by simp, le_rfl, hlt, he⟩
        · rw [if_neg hns] at he
          simp only [List.mem_cons] at he
          rcases he with he | he | he
          · exact Or.inl ⟨elapsed, by simp [he], le_rfl, hlt, by simp [he]⟩
          · exact Or.inr he
          · rcases ih e he with ⟨t, h2, h3, h4, h5⟩ | hs
            · exact Or.inl ⟨t, by omega, by omega, h4, h5⟩
            · exact Or.inr hs
  · simp at he
termination_by timeout - elapsed
decreasing_by omega

theorem wait_loop_first_poll (h : Hypervisor) (task_id : String) (timeout : Nat)
    (elapsed : Nat) (hlt : elapsed < timeout) :
    Effect.taskStatus task_id elapsed ∈ (wait_loop h task_id timeout elapsed).2 := by
  unfold wait_loop
  rw [dif_pos hlt]
  cases hq : h.taskStatus task_id elapsed with
  | error e => simp
  | ok st =>
      by_cases hns : st.status = some "stopped"
      · simp [hns]
      · simp [hns]

/-! Claim theorems. -/

/-- C1: for every action name not among the recognized nine operations, the
dispatcher returns an envelope with success false and message Unknown action,
and the effect trace is empty, so no remote call to the hypervisor is
attempted. -/
theorem unknown_action_no_call (h : Hypervisor) (node : String) (args : Args)
    (hact : args.action ∉ ["create", "start", "stop", "reboot", "delete",
      "status", "console", "snapshot_list", "snapshot_create"]) :
    dispatch h node args =
      ({ success := false, message := some "Unknown action" }, []) := by
  simp only [List.mem_cons, List.not_mem_nil, or_false, not_or] at hact
  obtain ⟨h1, h2, h3, h4, h5, h6, h7, h8, h9⟩ := hact
  simp [dispatch, h1, h2, h3, h4, h5, h6, h7, h8, h9]

theorem unknown_action_no_call_witness :
    dispatch hvRunning "pve" { action := "destroy_all", vmid := 1 } =
      ({ success := false, message := some "Unknown action" }, []) :=
  unknown_action_no_call hvRunning "pve" { action := "destroy_all", vmid := 1 }
    (by decide)

/-- C4: Start on a VM whose current state query reports running returns
success true and its trace contains zero mutating calls; Stop on a VM whose
current state query reports stopped likewise returns success true with zero
mutating calls. -/
theorem start_stop_idempotent (h : Hypervisor) (vmid : Nat) (st : VMStatusResp)
    (hq : h.statusCurrent vmid = .ok st) :
    (st.status = "running" →
      (start_vm h vmid).1.success = true ∧
      ((start_vm h vmid).2.countP Effect.isMutating) = 0)
    ∧ (st.status = "stopped" → ∀ force,
      (stop_vm h vmid force).1.success = true ∧
      ((stop_vm h vmid force).2.countP Effect.isMutating) = 0) := by
  constructor
  · intro hr
    simp [start_vm, hq, hr, List.countP_cons, List.countP_nil, Effect.isMutating]
  · intro hs force
    simp [stop_vm, hq, hs, List.countP_cons, List.countP_nil, Effect.isMutating]

theorem start_stop_idempotent_witness :
    ((start_vm hvRunning 5).1.success = true ∧
      ((start_vm hvRunning 5).2.countP Effect.isMutating) = 0)
    ∧ ((stop_vm hvStopped 5 false).1.success = true ∧
      ((stop_vm hvStopped 5 false).2.countP Effect.isMutating) = 0) :=
  ⟨(start_stop_idempotent hvRunning 5 stRunning rfl).1 rfl,
   (start_stop_idempotent hvStopped 5 stStopped rfl).2 rfl false⟩

/-- C5: Reboot on a VM whose current state query reports anything other than
running returns the precondition envelope with success false, and its trace
is the single status query, so zero mutating calls are issued. -/
theorem reboot_precondition (h : Hypervisor) (vmid : Nat) (st : VMStatusResp)
    (hq : h.statusCurrent vmid = .ok st) (hns : st.status ≠ "running") :
    (reboot_vm h vmid).1 =
      { success := false, message := some "VM must be running to reboot", vmid := some vmid }
    ∧ (reboot_vm h vmid).2 = [Effect.statusCurrent vmid]
    ∧ ((reboot_vm h vmid).2.countP Effect.isMutating) = 0 := by
  refine ⟨?_, ?_, ?_⟩ <;>
    simp [reboot_vm, hq, hns, List.countP_cons, List.countP_nil, Effect.isMutating]

theorem reboot_precondition_witness :
    (reboot_vm hvStopped 8).1 =
      { success := false, message := some "VM must be running to reboot", vmid := some 8 }
    ∧ (reboot_vm hvStopped 8).2 = [Effect.statusCurrent 8]
    ∧ ((reboot_vm hvStopped 8).2.countP Effect.isMutating) = 0 :=
  reboot_precondition hvStopped 8 stStopped rfl (by decide)

/-- C6: Delete on a VM whose current state query reports running produces
exactly the trace status query, inner status query, one forced stop, the 3
second grace sleep, and one delete with purge 1; on a VM not reporting
running the trace is the status query followed directly by the delete with
purge 1, with no stop call. -/
theorem delete_call_sequence (h : Hypervisor) (vmid : Nat) (st : VMStatusResp)
    (hq : h.statusCurrent vmid = .ok st) :
    (st.status = "running" →
      (delete_vm h vmid true).2 =
        [Effect.statusCurrent vmid, Effect.statusCurrent vmid, Effect.stopPost vmid,
         Effect.sleep 3, Effect.deletePost vmid 1])
    ∧ (st.status ≠ "running" →
      (delete_vm h vmid true).2 =
        [Effect.statusCurrent vmid, Effect.deletePost vmid 1]) := by
  constructor
  · intro hr
    have hstop : (stop_vm h vmid true).2 = [Effect.statusCurrent vmid, Effect.stopPost vmid] := by
      have hns : st.status ≠ "stopped" := by rw [hr]; decide
      cases hp : h.stopPost vmid <;>
        simp [stop_vm, hq, hns, hp]
    cases hd : h.deletePost vmid 1 <;>
      simp [delete_vm, hq, hr, hstop, hd]
  · intro hnr
    cases hd : h.deletePost vmid 1 <;>
      simp [delete_vm, hq, hnr, hd]

theorem delete_call_sequence_witness :
    (delete_vm hvRunning 5 true).2 =
      [Effect.statusCurrent 5, Effect.statusCurrent 5, Effect.stopPost 5,
       Effect.sleep 3, Effect.deletePost 5 1]
    ∧ (delete_vm hvStopped 6 true).2 =
      [Effect.statusCurrent 6, Effect.deletePost 6 1] :=
  ⟨(delete_call_sequence hvRunning 5 stRunning rfl).1 rfl,
   (delete_call_sequence hvStopped 6 stStopped rfl).2 (by decide)⟩

/-- C10: the outcome of the forced stop inside Delete is discarded: when the
current state reports running and the forced stop fails (the inner stop_vm
envelope reports success false), the Delete trace nevertheless contains the 3
second grace sleep and the purge delete call. -/
theorem delete_ignores_stop_failure (h : Hypervisor) (vmid : Nat)
    (st : VMStatusResp) (hq : h.statusCurrent vmid = .ok st)
    (hr : st.status = "running") (e : PyErr) (hstop : h.stopPost vmid = .error e) :
    (stop_vm h vmid true).1.success = false
    ∧ Effect.sleep 3 ∈ (delete_vm h vmid true).2
    ∧ Effect.deletePost vmid 1 ∈ (delete_vm h vmid true).2 := by
  have hns : st.status ≠ "stopped" := by rw [hr]; decide
  have h1 : (stop_vm h vmid true).1.success = false := by
    cases e <;> simp [stop_vm, hq, hns, hstop, errEnvelope]
  have h2 : (stop_vm h vmid true).2 = [Effect.statusCurrent vmid, Effect.stopPost vmid] := by
    simp [stop_vm, hq, hns, hstop]
  refine ⟨h1, ?_, ?_⟩ <;>
    cases hd : h.deletePost vmid 1 <;>
      simp [delete_vm, hq, hr, h2, hd]

theorem delete_ignores_stop_failure_witness :
    (stop_vm hvStopFails 5 true).1.success = false
    ∧ Effect.sleep 3 ∈ (delete_vm hvStopFails 5 true).2
    ∧ Effect.deletePost 5 1 ∈ (delete_vm hvStopFails 5 true).2 :=
  delete_ignores_stop_failure hvStopFails 5 stRunning rfl rfl
    (.resource "cannot stop VM") rfl

/-- C7: when required parameters for the requested action are missing (Create
with a falsy required argument, CreateSnapshot without a snapshot name), the
dispatcher returns an envelope with success false and a descriptive message,
and the effect trace is empty, so no remote call of any kind is attempted. -/
theorem missing_params_no_call (h : Hypervisor) (node : String) (args : Args) :
    (args.action = "create" → createArgsOk args = false →
      dispatch h node args =
        ({ success := false, message := some "Missing required arguments for create action" }, []))
    ∧ (args.action = "snapshot_create" → truthyStr args.snapshot_name = false →
      dispatch h node args =
        ({ success := false, message := some "Missing --snapshot-name for snapshot_create action" }, [])) := by
  constructor
  · intro ha hbad
    simp [dispatch, ha, hbad]
  · intro ha hbad
    simp [dispatch, ha, hbad]

theorem missing_params_no_call_witness :
    dispatch hvRunning "pve"
      { action := "create", vmid := 101, vcpu := some 2, ram := some 1024,
        disk := some 10, os_template := some "debian-12",
        ip_address := some "10.0.0.2", gateway := some "10.0.0.1" } =
      ({ success := false, message := some "Missing required arguments for create action" }, []) :=
  (missing_params_no_call hvRunning "pve"
    { action := "create", vmid := 101, vcpu := some 2, ram := some 1024,
      disk := some 10, os_template := some "debian-12",
      ip_address := some "10.0.0.2", gateway := some "10.0.0.1" }).1
    rfl (by decide)

/-- C9: for every snapshot listing returned by the hypervisor, ListSnapshots
succeeds and returns a sublist of the source listing (hence in the order
supplied) containing exactly the entries whose name is not current. -/
theorem list_snapshots_filters_current (h : Hypervisor) (vmid : Nat)
    (snaps : List Snapshot) (hq : h.snapshotGet vmid = .ok snaps) :
    (list_snapshots h vmid).1.success = true
    ∧ ∀ l, (list_snapshots h vmid).1.snapshots = some l →
        l.Sublist snaps ∧ ∀ s, s ∈ l ↔ (s ∈ snaps ∧ s.name ≠ some "current") := by
  constructor
  · simp [list_snapshots, hq]
  · intro l hl
    have hfl : l = snaps.filter (fun s => s.name ≠ some "current") := by
      have hsome : (list_snapshots h vmid).1.snapshots =
          some (snaps.filter (fun s => s.name ≠ some "current")) := by
        simp only [list_snapshots, hq]
      rw [hsome] at hl
      exact (Option.some_inj.mp hl).symm
    subst hfl
    refine ⟨List.filter_sublist snaps, ?_⟩
    intro s
    simp [List.mem_filter]

theorem list_snapshots_filters_current_witness :
    (list_snapshots hvSnaps 7).1.success = true
    ∧ (list_snapshots hvSnaps 7).1.snapshots = some [snapAlpha, snapBeta]
    ∧ List.Sublist [snapAlpha, snapBeta] [snapCurrent, snapAlpha, snapBeta] :=
  ⟨(list_snapshots_filters_current hvSnaps 7 [snapCurrent, snapAlpha, snapBeta] rfl).1,
   by decide,
   ((list_snapshots_filters_current hvSnaps 7 [snapCurrent, snapAlpha, snapBeta] rfl).2
      [snapAlpha, snapBeta] (by decide)).1⟩

/-- C3: the task waiter polls the status every 2 seconds: every trace event is
either a poll at an even elapsed time below the timeout or a 2 second sleep;
when some poll at even time k below the timeout reports status stopped and
every earlier poll outcome is non-terminal (a swallowed query failure or a
non-stopped status), the waiter returns that poll's exit status string; and
when every poll outcome below the timeout is non-terminal, the waiter returns
the timeout sentinel without raising. -/
theorem wait_for_task_spec (h : Hypervisor) (task_id : String) (timeout : Nat) :
    (∀ e ∈ (wait_for_task h task_id timeout).2,
      (∃ t, t % 2 = 0 ∧ t < timeout ∧ e = Effect.taskStatus task_id t)
        ∨ e = Effect.sleep 2)
    ∧ (∀ k st, k < timeout → k % 2 = 0 → h.taskStatus task_id k = .ok st →
        st.status = some "stopped" →
        (∀ t, t < k → nonTerminalB (h.taskStatus task_id t) = true) →
        (wait_for_task h task_id timeout).1 = st.exitstatus.getD "unknown")
    ∧ ((∀ t, t < timeout → nonTerminalB (h.taskStatus task_id t) = true) →
        (wait_for_task h task_id timeout).1 = "timeout") := by
  refine ⟨?_, ?_, ?_⟩
  · intro e he
    rcases wait_loop_events h task_id timeout 0 e he with ⟨t, h1, h2, h3, h4⟩ | hs
    · exact Or.inl ⟨t, by omega, h3, h4⟩
    · exact Or.inr hs
  · intro k st hkt hpar hk hst hnt
    exact wait_loop_stopped h task_id timeout k st hk hst 0 (Nat.zero_le k)
      (by omega) hkt (fun t _ ht => hnt t ht)
  · intro hnt
    exact wait_loop_timeout h task_id timeout 0 (fun t _ ht => hnt t ht)

theorem wait_for_task_spec_witness :
    (wait_for_task hvPending "UPID:job:1" 4).1 = "timeout"
    ∧ (wait_for_task hvRunning "UPID:job:1" 60).1 = "OK" :=
  ⟨(wait_for_task_spec hvPending "UPID:job:1" 4).2.2 (by decide),
   (wait_for_task_spec hvRunning "UPID:job:1" 60).2.1 0
     { status := some "stopped", exitstatus := some "OK" }
     (by decide) (by decide) rfl rfl (by decide)⟩

/-! Helper lemmas on handler traces for the completion-wait claim. -/

theorem create_vm_trace_ok (h : Hypervisor) (vmid : Nat) (name : String)
    (vcpu ram disk : Nat) (tpl ip gw : String) (task_id : String)
    (htid : h.qemuCreate (create_config vmid name vcpu ram disk tpl ip gw) = .ok task_id) :
    (create_vm h vmid name vcpu ram disk tpl ip gw).2 =
      Effect.qemuCreate (create_config vmid name vcpu ram disk tpl ip gw)
        :: (wait_for_task h task_id).2 := by
  simp only [create_vm, htid]
  split <;> rfl

theorem create_vm_trace_error (h : Hypervisor) (vmid : Nat) (name : String)
    (vcpu ram disk : Nat) (tpl ip gw : String) (e : PyErr)
    (htid : h.qemuCreate (create_config vmid name vcpu ram disk tpl ip gw) = .error e) :
    (create_vm h vmid name vcpu ram disk tpl ip gw).2 =
      [Effect.qemuCreate (create_config vmid name vcpu ram disk tpl ip gw)] := by
  simp only [create_vm, htid]

theorem create_snapshot_trace_ok (h : Hypervisor) (vmid : Nat)
    (snapname descr : String) (task_id : String)
    (htid : h.snapshotPost vmid snapname (snapshot_desc descr) 0 = .ok task_id) :
    (create_snapshot h vmid snapname descr).2 =
      Effect.snapshotPost vmid snapname (snapshot_desc descr) 0
        :: (wait_for_task h task_id 120).2 := by
  simp only [create_snapshot, htid]
  split <;> rfl

theorem create_snapshot_trace_error (h : Hypervisor) (vmid : Nat)
    (snapname descr : String) (e : PyErr)
    (htid : h.snapshotPost vmid snapname (snapshot_desc descr) 0 = .error e) :
    (create_snapshot h vmid snapname descr).2 =
      [Effect.snapshotPost vmid snapname (snapshot_desc descr) 0] := by
  simp only [create_snapshot, htid]

theorem start_vm_no_poll (h : Hypervisor) (vmid : Nat) :
    ((start_vm h vmid).2.countP Effect.isTaskStatus) = 0 := by
  cases hq : h.statusCurrent vmid with
  | error e => simp [start_vm, hq, Effect.isTaskStatus]
  | ok st =>
      by_cases hr : st.status = "running"
      · simp [start_vm, hq, hr, Effect.isTaskStatus]
      · cases hp : h.startPost vmid <;>
          simp [start_vm, hq, hr, hp, Effect.isTaskStatus]

theorem stop_vm_no_poll (h : Hypervisor) (vmid : Nat) (force : Bool) :
    ((stop_vm h vmid force).2.countP Effect.isTaskStatus) = 0 := by
  cases hq : h.statusCurrent vmid with
  | error e => simp [stop_vm, hq, Effect.isTaskStatus]
  | ok st =>
      by_cases hs : st.status = "stopped"
      · simp [stop_vm, hq, hs, Effect.isTaskStatus]
      · cases force with
        | false =>
            cases hp : h.shutdownPost vmid <;>
              simp [stop_vm, hq, hs, hp, Effect.isTaskStatus]
        | true =>
            cases hp : h.stopPost vmid <;>
              simp [stop_vm, hq, hs, hp, Effect.isTaskStatus]

theorem reboot_vm_no_poll (h : Hypervisor) (vmid : Nat) :
    ((reboot_vm h vmid).2.countP Effect.isTaskStatus) = 0 := by
  cases hq : h.statusCurrent vmid with
  | error e => simp [reboot_vm, hq, Effect.isTaskStatus]
  | ok st =>
      by_cases hr : st.status = "running"
      · cases hp : h.rebootPost vmid <;>
          simp [reboot_vm, hq, hr, hp, Effect.isTaskStatus]
      · simp [reboot_vm, hq, hr, Effect.isTaskStatus]

theorem delete_vm_no_poll (h : Hypervisor) (vmid : Nat) (purge : Bool) :
    ((delete_vm h vmid purge).2.countP Effect.isTaskStatus) = 0 := by
  cases hq : h.statusCurrent vmid with
  | error e => simp [delete_vm, hq, Effect.isTaskStatus]
  | ok st =>
      have hstop := stop_vm_no_poll h vmid true
      by_cases hr : st.status = "running"
      · cases hd : h.deletePost vmid (if purge then 1 else 0) <;>
          simp [delete_vm, hq, hr, hd, List.countP_append, List.countP_cons,
            Effect.isTaskStatus, hstop]
      · cases hd : h.deletePost vmid (if purge then 1 else 0) <;>
          simp [delete_vm, hq, hr, hd, Effect.isTaskStatus]

/-- C2 counterexample: Start on a stopped VM submits the start mutation and
constructs its success result with no completion wait at all: its trace
contains the start call and zero polls of the task status endpoint. -/
theorem start_no_completion_wait_cex :
    (start_vm hvStopped 9).1.success = true
    ∧ Effect.startPost 9 ∈ (start_vm hvStopped 9).2
    ∧ ((start_vm hvStopped 9).2.countP Effect.isTaskStatus) = 0 := by
  decide

/-- C2 amended: only Create and CreateSnapshot perform a completion wait on
the returned job handle before constructing their result: when the creation
submit succeeds the trace polls the returned handle, all polls staying below
the 60 second default timeout (120 seconds for snapshot creation); Start,
Stop, Reboot and Delete never poll the task status endpoint. -/
theorem completion_wait_only_create_and_snapshot (h : Hypervisor) (vmid : Nat)
    (name : String) (vcpu ram disk : Nat) (tpl ip gw snapname descr : String)
    (force purge : Bool) :
    (∀ task_id,
      h.qemuCreate (create_config vmid name vcpu ram disk tpl ip gw) = .ok task_id →
      Effect.taskStatus task_id 0 ∈ (create_vm h vmid name vcpu ram disk tpl ip gw).2)
    ∧ (∀ s t, Effect.taskStatus s t ∈ (create_vm h vmid name vcpu ram disk tpl ip gw).2 →
        t < 60)
    ∧ (∀ task_id,
      h.snapshotPost vmid snapname (snapshot_desc descr) 0 = .ok task_id →
      Effect.taskStatus task_id 0 ∈ (create_snapshot h vmid snapname descr).2)
    ∧ (∀ s t, Effect.taskStatus s t ∈ (create_snapshot h vmid snapname descr).2 →
        t < 120)
    ∧ ((start_vm h vmid).2.countP Effect.isTaskStatus) = 0
    ∧ ((stop_vm h vmid force).2.countP Effect.isTaskStatus) = 0
    ∧ ((reboot_vm h vmid).2.countP Effect.isTaskStatus) = 0
    ∧ ((delete_vm h vmid purge).2.countP Effect.isTaskStatus) = 0 := by
  refine ⟨?_, ?_, ?_, ?_, start_vm_no_poll h vmid, stop_vm_no_poll h vmid force,
    reboot_vm_no_poll h vmid, delete_vm_no_poll h vmid purge⟩
  · intro task_id htid
    rw [create_vm_trace_ok h vmid name vcpu ram disk tpl ip gw task_id htid]
    exact List.mem_cons_of_mem _ (wait_loop_first_poll h task_id 60 0 (by omega))
  · intro s t hmem
    cases htid : h.qemuCreate (create_config vmid name vcpu ram disk tpl ip gw) with
    | error e =>
        rw [create_vm_trace_error h vmid name vcpu ram disk tpl ip gw e htid] at hmem
        simp at hmem
    | ok task_id =>
        rw [create_vm_trace_ok h vmid name vcpu ram disk tpl ip gw task_id htid] at hmem
        rcases List.mem_cons.mp hmem with hmem | hmem
        · exact absurd hmem (by simp)
        · rcases wait_loop_events h task_id 60 0 _ hmem with ⟨u, h1, h2, h3, h4⟩ | hs
          · rw [Effect.taskStatus.injEq] at h4
            omega
          · exact absurd hs (by simp)
  · intro task_id htid
    rw [create_snapshot_trace_ok h vmid snapname descr task_id htid]
    exact List.mem_cons_of_mem _ (wait_loop_first_poll h task_id 120 0 (by omega))
  · intro s t hmem
    cases htid : h.snapshotPost vmid snapname (snapshot_desc descr) 0 with
    | error e =>
        rw [create_snapshot_trace_error h vmid snapname descr e htid] at hmem
        simp at hmem
    | ok task_id =>
        rw [create_snapshot_trace_ok h vmid snapname descr task_id htid] at hmem
        rcases List.mem_cons.mp hmem with hmem | hmem
        · exact absurd hmem (by simp)
        · rcases wait_loop_events h task_id 120 0 _ hmem with ⟨u, h1, h2, h3, h4⟩ | hs
          · rw [Effect.taskStatus.injEq] at h4
            omega
          · exact absurd hs (by simp)

theorem completion_wait_only_create_and_snapshot_witness :
    Effect.taskStatus "UPID:qmcreate:1" 0 ∈
      (create_vm hvRunning 100 "web1" 2 1024 10 "debian-12" "10.0.0.2" "10.0.0.1").2
    ∧ ((start_vm hvRunning 100).2.countP Effect.isTaskStatus) = 0 :=
  ⟨(completion_wait_only_create_and_snapshot hvRunning 100 "web1" 2 1024 10
      "debian-12" "10.0.0.2" "10.0.0.1" "snap1" "" false true).1
      "UPID:qmcreate:1" rfl,
   (completion_wait_only_create_and_snapshot hvRunning 100 "web1" 2 1024 10
      "debian-12" "10.0.0.2" "10.0.0.1" "snap1" "" false true).2.2.2.2.1⟩

/-- C8 counterexample: a successful GetStatus invocation produces an envelope
that carries no message field at all, refuting the claim that every envelope
includes a human readable message. -/
theorem envelope_message_missing_cex :
    ((mainRun cfgFull "pve" (.ok hvRunning) { action := "status", vmid := 3 }).1.success = true)
    ∧ ((mainRun cfgFull "pve" (.ok hvRunning) { action := "status", vmid := 3 }).1.message
        = none) := by
  decide

/-- C8 amended: every invocation produces exactly one envelope, which always
carries the success flag, and the process exit code is 0 exactly when success
is true and 1 otherwise (including configuration and connection failures);
however the message and VM identifier fields are not present in every
envelope (the successful GetStatus envelope has no message, handler error
envelopes have no vmid). -/
theorem exit_code_matches_success (cfg : Config) (node : String)
    (connect : Except String Hypervisor) (args : Args) :
    (mainRun cfg node connect args).2 =
      (if (mainRun cfg node connect args).1.success then 0 else 1) := by
  unfold mainRun
  cases hc : configOk cfg with
  | false => simp [hc]
  | true =>
      cases connect with
      | error e => simp [hc]
      | ok h => simp [hc]
